import Mathlib

/-!
Verification of the upload-to-report pipeline of the LPL-Hackathon2026
repository: the Upload Broker (POST /api/get-upload-url), the Meeting
Registry (the meetings JSON file and its routes), and the Report Resolver
(GET /api/reports/[meetingId], of which the repository contains two
variants).  Each route handler is shallowly embedded as a pure Lean
function over explicit state: the registry backing file, the object
store, the environment, and the clock (epoch milliseconds) are inputs.
-/

set_option autoImplicit false

namespace LplPipeline

/-! ### Decimal rendering of epoch milliseconds

JavaScript template literals such as (string interpolation of Date.now())
render the millisecond clock value in decimal.  We embed that rendering
as an executable function on Nat together with the two facts the proofs
need: it is injective, and it produces only digit characters. -/

/-- Decimal digits of a natural number, most significant first, driven by
explicit fuel so that the definition reduces inside the kernel. -/
def decDigits : Nat → Nat → List Char
  | 0, _ => []
  | fuel+1, n =>
    if n < 10 then [Nat.digitChar n]
    else decDigits fuel (n / 10) ++ [Nat.digitChar (n % 10)]

/-- Decimal rendering of a natural number, as produced by JavaScript
string interpolation of an integer-valued number. -/
def natToString (n : Nat) : String := String.mk (decDigits (n + 1) n)

/-- Value of a most-significant-first digit string (little-endian helper). -/
def digitListVal : List Char → Nat
  | [] => 0
  | c :: cs => (c.toNat - 48) + 10 * digitListVal cs

/-- Value of a most-significant-first digit string. -/
def decVal (ds : List Char) : Nat := digitListVal ds.reverse

theorem digitChar_toNat_of_lt_ten : ∀ n, n < 10 → (Nat.digitChar n).toNat = 48 + n := by
  decide

theorem decVal_append_digit (ds : List Char) (c : Char) :
    decVal (ds ++ [c]) = (c.toNat - 48) + 10 * decVal ds := by
  simp [decVal, digitListVal]

theorem decVal_decDigits : ∀ fuel n, n < fuel → decVal (decDigits fuel n) = n := by
  intro fuel
  induction fuel with
  | zero => intro n hn; omega
  | succ f ih =>
    intro n hn
    by_cases h10 : n < 10
    · simp only [decDigits, if_pos h10]
      simp [decVal, digitListVal, digitChar_toNat_of_lt_ten n h10]
    · simp only [decDigits, if_neg h10]
      have hlt : n / 10 < f := by omega
      rw [decVal_append_digit, ih (n / 10) hlt]
      have h9 : n % 10 < 10 := Nat.mod_lt _ (by omega)
      rw [digitChar_toNat_of_lt_ten (n % 10) h9]
      omega

theorem natToString_injective : ∀ m n, natToString m = natToString n → m = n := by
  intro m n h
  have hdata : decDigits (m + 1) m = decDigits (n + 1) n :=
    congrArg String.data h
  have hm := decVal_decDigits (m + 1) m (by omega)
  have hn := decVal_decDigits (n + 1) n (by omega)
  rw [← hm, ← hn, hdata]

theorem digitChar_isDigit : ∀ n, n < 10 →
    48 ≤ (Nat.digitChar n).toNat ∧ (Nat.digitChar n).toNat ≤ 57 := by
  decide

theorem decDigits_digits : ∀ fuel n c, c ∈ decDigits fuel n →
    48 ≤ c.toNat ∧ c.toNat ≤ 57 := by
  intro fuel
  induction fuel with
  | zero => intro n c hc; simp [decDigits] at hc
  | succ f ih =>
    intro n c hc
    by_cases h10 : n < 10
    · simp only [decDigits, if_pos h10, List.mem_singleton] at hc
      subst hc; exact digitChar_isDigit n h10
    · simp only [decDigits, if_neg h10, List.mem_append, List.mem_singleton] at hc
      rcases hc with hc | hc
      · exact ih (n / 10) c hc
      · subst hc
        exact digitChar_isDigit (n % 10) (Nat.mod_lt _ (by omega))

theorem natToString_no_dash (n : Nat) : ∀ c ∈ (natToString n).data, c ≠ '-' := by
  intro c hc
  have hd := decDigits_digits (n + 1) n c (by simpa [natToString] using hc)
  intro hdash
  subst hdash
  simp at hd

/-- Two separator-free prefixes followed by the same separator determine
each other: cancellation around a distinguished character. -/
theorem append_sep_cancel (sep : Char) :
    ∀ (a b r r' : List Char), (∀ c ∈ a, c ≠ sep) → (∀ c ∈ b, c ≠ sep) →
      a ++ sep :: r = b ++ sep :: r' → a = b ∧ r = r' := by
  intro a
  induction a with
  | nil =>
    intro b r r' _ hb h
    cases b with
    | nil => simpa using h
    | cons x xs =>
      simp only [List.nil_append, List.cons_append, List.cons.injEq] at h
      exact absurd h.1.symm (hb x (by simp))
  | cons x xs ih =>
    intro b r r' ha hb h
    cases b with
    | nil =>
      simp only [List.nil_append, List.cons_append, List.cons.injEq] at h
      exact absurd h.1 (ha x (by simp))
    | cons y ys =>
      simp only [List.cons_append, List.cons.injEq] at h
      obtain ⟨hxy, htail⟩ := h
      have hrest := ih ys r r' (fun c hc => ha c (by simp [hc])) (fun c hc => hb c (by simp [hc])) htail
      exact ⟨by rw [hxy, hrest.1], hrest.2⟩

/-! ### Data model

A meeting record as written by the POST routes of
src/app/api/meetings/from-upload/route.ts.  Besides the generated id and
the stored file name, the routes store fixed placeholder strings; the
display date and time are presentational renderings of the same clock
value and are not consulted by any handler, so they are carried here as
the raw millisecond timestamp. -/

structure MeetingRec where
  id : String
  fileName : String
  createdAtMs : Nat
  advisors : String
  meetingUrl : String
  status : String
deriving DecidableEq, Repr

/-- Identifier generation of the POST routes: the template literal
meeting-(Date.now()). -/
def mkMeetingId (t : Nat) : String := "meeting-" ++ natToString t

/-- The record literal built by the POST routes at clock value t. -/
def mkMeeting (fileName : String) (t : Nat) : MeetingRec :=
  { id := mkMeetingId t
    fileName := fileName
    createdAtMs := t
    advisors := "Client Meeting"
    meetingUrl := "Pre-recorded audio"
    status := "Completed" }

/-- State of the registry backing file data/meetings.json: it can be
absent (first run), present but failing JSON.parse, or a parsed array of
records. -/
inductive BackingStore
  | absent
  | unparsable
  | stored (recs : List MeetingRec)
deriving DecidableEq, Repr

/-- The body of readMeetings before its catch clause: fs.readFile throws
on an absent file and JSON.parse throws on corrupt content. -/
def readMeetingsRaw : BackingStore → Except String (List MeetingRec)
  | .absent => .error "ENOENT: no such file or directory"
  | .unparsable => .error "SyntaxError: Unexpected token"
  | .stored recs => .ok recs

/-- readMeetings from both route files: any throw from the body is caught
and mapped to the empty array. -/
def readMeetings (bs : BackingStore) : List MeetingRec :=
  match readMeetingsRaw bs with
  | .ok recs => recs
  | .error _ => []

/-- The lookup meetings.find performed by the report routes: first record
whose id equals the requested meeting id. -/
def findById (recs : List MeetingRec) (meetingId : String) : Option MeetingRec :=
  recs.find? (fun m => m.id == meetingId)

/-- One successful append of the POST routes: build the record at clock
value t and unshift it onto the head of the array. -/
def appendMeeting (fileName : String) (t : Nat) (recs : List MeetingRec) :
    MeetingRec × List MeetingRec :=
  let m := mkMeeting fileName t
  (m, m :: recs)

/-- One append request: the stored file name together with the Date.now()
value observed while handling it. -/
structure AppendOp where
  fileName : String
  atMs : Nat
deriving DecidableEq, Repr

/-- The registry contents after a sequence of successful appends starting
from an empty registry, oldest request first. -/
def runRegistry (ops : List AppendOp) : List MeetingRec :=
  ops.foldl (fun recs op => (appendMeeting op.fileName op.atMs recs).2) []

/-! ### HTTP responses

One response shape covers every route in scope.  Absent optional fields
mean the JSON body carries no such key. -/

structure HttpResp where
  status : Nat
  success : Option Bool := none
  error : Option String := none
  message : Option String := none
  details : Option String := none
  report : Option String := none
  meeting : Option MeetingRec := none
  meetings : Option (List MeetingRec) := none
  uploadKey : Option String := none
  grantIssued : Bool := false
deriving DecidableEq, Repr

/-! ### Report key derivation

Both report-route variants derive the report object key from the stored
file name with an anchored, case-insensitive extension regex.  The regex
of variant 1 (lines 293-294 of the route) is (backslash).(mp3|wav|m4a|flac|ogg)$
with the /i flag, replaced by ".json" under the folder "audit/"; variant 2
(lines 387-388) additionally recognizes txt, strips the extension
entirely and forms "audits/" ++ base ++ "_audit.json". -/

def audioExtsV1 : List String := ["mp3", "wav", "m4a", "flac", "ogg"]

def audioExtsV2 : List String := ["mp3", "wav", "m4a", "flac", "ogg", "txt"]

/-- If the file name ends, case-insensitively, with a dot followed by the
given extension, return the name with that suffix removed. -/
def stripDotSuffixCI (s ext : String) : Option String :=
  let lowered := s.data.map Char.toLower
  let suf := ("." ++ ext).data
  if suf.isSuffixOf lowered ∧ lowered.length = s.data.length then
    some (String.mk (s.data.take (s.data.length - suf.length)))
  else none

/-- First extension of the list that matches at the end of the name, as
the regex alternation does. -/
def firstStrip (exts : List String) (s : String) : Option String :=
  exts.findSome? (stripDotSuffixCI s)

/-- Report key of route variant 1: replace a recognized trailing audio
extension with ".json" (no match leaves the name unchanged) and prefix
the folder "audit/". -/
def reportKeyV1 (fileName : String) : String :=
  match firstStrip audioExtsV1 fileName with
  | some base => "audit/" ++ base ++ ".json"
  | none => "audit/" ++ fileName

/-- Base name of route variant 2: strip a recognized trailing extension
(including txt); no match leaves the name unchanged. -/
def baseNameV2 (fileName : String) : String :=
  match firstStrip audioExtsV2 fileName with
  | some base => base
  | none => fileName

/-- Report key of route variant 2. -/
def reportKeyV2 (fileName : String) : String :=
  "audits/" ++ baseNameV2 fileName ++ "_audit.json"

/-! ### Object store model

A fetched object either parses as JSON (the parsed report is passed
through opaquely) or makes JSON.parse throw; a fetch can also fail with
the NoSuchKey error or with any other store-level fault (network,
permission, throttling), which the SDK surfaces as a thrown error with a
message. -/

inductive ObjContent
  | wellFormed (payload : String)
  | malformed
deriving DecidableEq, Repr

inductive S3Outcome
  | ok (content : ObjContent)
  | noSuchKey
  | fault (msg : String)
deriving DecidableEq, Repr

/-- The report store: outcome of a GetObject per bucket and key. -/
def S3Store := String → String → S3Outcome

/-! ### Report Resolver, variant 1 (lines 272-342 of the route source)

A NoSuchKey error yields 202 with success:false, a message and the
meeting record; a parse failure or any other store fault is rethrown into
the outer catch, yielding 500. -/

def resolveReportV1 (bs : BackingStore) (store : S3Store)
    (reportsBucket meetingId : String) : HttpResp :=
  match findById (readMeetings bs) meetingId with
  | none => { status := 404, error := some "Meeting not found" }
  | some meeting =>
    match store reportsBucket (reportKeyV1 meeting.fileName) with
    | .ok (.wellFormed payload) =>
      { status := 200, success := some true, report := some payload,
        meeting := some meeting }
    | .ok .malformed =>
      { status := 500, error := some "Failed to fetch compliance report" }
    | .noSuchKey =>
      { status := 202, success := some false, error := some "Report not ready",
        message := some "The compliance report is still being processed. Please try again in a few minutes.",
        meeting := some meeting }
    | .fault _ =>
      { status := 500, error := some "Failed to fetch compliance report" }

/-! ### Report Resolver, variant 2 (lines 343-427 of the route source)

The bucket is hardcoded.  Every error of the fetch-and-parse block lands
in one catch clause: for the meeting id "meeting-live-demo" it retries a
hardcoded fallback key (whose own failure propagates to the outer catch
as 500); for every other id it returns 202 with an error body and no
meeting record. -/

def demoFallback (store : S3Store) (meeting : MeetingRec)
    (meetingId errMsg : String) : HttpResp :=
  if meetingId = "meeting-live-demo" then
    match store "transcripts-raw-lpl-26" "audits/call_01_audit.json" with
    | .ok (.wellFormed payload) =>
      { status := 200, success := some true, report := some payload,
        meeting := some meeting }
    | .ok .malformed =>
      { status := 500, error := some "SyntaxError: Unexpected token" }
    | .noSuchKey =>
      { status := 500, error := some "The specified key does not exist." }
    | .fault m =>
      { status := 500, error := some m }
  else
    { status := 202, error := some "S3 Fetch Failed", details := some errMsg }

def resolveReportV2 (bs : BackingStore) (store : S3Store)
    (meetingId : String) : HttpResp :=
  match findById (readMeetings bs) meetingId with
  | none => { status := 404, error := some "Meeting not found" }
  | some meeting =>
    match store "transcripts-raw-lpl-26" (reportKeyV2 meeting.fileName) with
    | .ok (.wellFormed payload) =>
      { status := 200, success := some true, report := some payload,
        meeting := some meeting }
    | .ok .malformed =>
      demoFallback store meeting meetingId "Unexpected token in JSON"
    | .noSuchKey =>
      demoFallback store meeting meetingId "The specified key does not exist."
    | .fault m =>
      demoFallback store meeting meetingId m

/-! ### Upload Broker (src/app/api/get-upload-url/route.ts) -/

/-- The relevant environment variables; none means unset. -/
structure UploadEnv where
  awsRegion : Option String
  awsAccessKeyId : Option String
  awsSecretAccessKey : Option String
  s3BucketName : Option String
deriving DecidableEq, Repr

/-- JavaScript falsiness of an environment string: unset or empty. -/
def isFalsy : Option String → Bool
  | none => true
  | some s => s == ""

/-- The region the S3 client is built with: process.env.AWS_REGION
defaulted to us-east-1 when falsy. -/
def regionOf (env : UploadEnv) : String :=
  match env.awsRegion with
  | none => "us-east-1"
  | some s => if s == "" then "us-east-1" else s

/-- The object key composed for the signed upload:
audio/(Date.now())-(fileName). -/
def uniqueFileName (t : Nat) (fileName : String) : String :=
  "audio/" ++ natToString t ++ "-" ++ fileName

/-- POST /api/get-upload-url at clock value t: missing credentials or
bucket name yield 500 before any grant is produced; otherwise a signed
grant for the composed key is returned. -/
def requestUploadGrant (env : UploadEnv) (fileName _fileType : String)
    (t : Nat) : HttpResp :=
  if isFalsy env.awsAccessKeyId || isFalsy env.awsSecretAccessKey
      || isFalsy env.s3BucketName then
    { status := 500, error := some "AWS configuration missing" }
  else
    let key := uniqueFileName t fileName
    { status := 200, uploadKey := some key, grantIssued := true }

/-! ### Meeting Registry routes -/

/-- GET /api/meetings: read the registry and return it with status 200. -/
def getMeetings (bs : BackingStore) : HttpResp :=
  { status := 200, meetings := some (readMeetings bs) }

/-- POST /api/meetings/from-upload at clock value t: a falsy fileName
(absent key or empty string) is rejected with 400 before the registry is
read or written; otherwise the new record is unshifted and the whole
array is written back. -/
def postFromUpload (body : Option String) (t : Nat) (bs : BackingStore) :
    HttpResp × BackingStore :=
  match body with
  | none => ({ status := 400, error := some "fileName is required" }, bs)
  | some fn =>
    if fn == "" then
      ({ status := 400, error := some "fileName is required" }, bs)
    else
      let m := mkMeeting fn t
      ({ status := 200, success := some true, meeting := some m },
       .stored (m :: readMeetings bs))

/-! ### Registry lemmas -/

theorem runRegistry_foldl (ops : List AppendOp) :
    ∀ acc : List MeetingRec,
      ops.foldl (fun recs op => (appendMeeting op.fileName op.atMs recs).2) acc
        = (ops.map fun op => mkMeeting op.fileName op.atMs).reverse ++ acc := by
  induction ops with
  | nil => intro acc; simp
  | cons op rest ih =>
    intro acc
    simp only [List.foldl_cons, List.map_cons, List.reverse_cons, List.append_assoc]
    rw [ih]
    rfl

theorem runRegistry_eq (ops : List AppendOp) :
    runRegistry ops = (ops.map fun op => mkMeeting op.fileName op.atMs).reverse := by
  rw [runRegistry, runRegistry_foldl]
  simp

theorem mkMeetingId_injective : ∀ t₁ t₂, mkMeetingId t₁ = mkMeetingId t₂ → t₁ = t₂ := by
  intro t₁ t₂ h
  apply natToString_injective
  have hdata : "meeting-".data ++ (natToString t₁).data
      = "meeting-".data ++ (natToString t₂).data := congrArg String.data h
  have := List.append_cancel_left hdata
  calc natToString t₁ = String.mk (natToString t₁).data := rfl
    _ = String.mk (natToString t₂).data := by rw [this]
    _ = natToString t₂ := rfl

theorem runRegistry_ids (ops : List AppendOp) :
    (runRegistry ops).map MeetingRec.id
      = ((ops.map fun op => mkMeetingId op.atMs)).reverse := by
  rw [runRegistry_eq, List.map_reverse, List.map_map]
  rfl

theorem runRegistry_ids_nodup (ops : List AppendOp)
    (h : (ops.map AppendOp.atMs).Nodup) :
    ((runRegistry ops).map MeetingRec.id).Nodup := by
  rw [runRegistry_ids, List.nodup_reverse]
  have hmap : (ops.map fun op => mkMeetingId op.atMs)
      = (ops.map AppendOp.atMs).map mkMeetingId := by
    rw [List.map_map]; rfl
  rw [hmap]
  exact h.map (fun a b hab => mkMeetingId_injective a b hab)

theorem findById_eq_none (recs : List MeetingRec) (s : String)
    (h : ∀ m ∈ recs, m.id ≠ s) : findById recs s = none := by
  rw [findById, List.find?_eq_none]
  intro m hm
  simpa using h m hm

theorem findById_of_mem (recs : List MeetingRec)
    (hnd : (recs.map MeetingRec.id).Nodup) :
    ∀ m ∈ recs, findById recs m.id = some m := by
  induction recs with
  | nil => intro m hm; simp at hm
  | cons h t ih =>
    intro m hm
    simp only [List.map_cons, List.nodup_cons, List.mem_map] at hnd
    rcases List.mem_cons.mp hm with rfl | hmt
    · simp [findById, List.find?]
    · have hne : h.id ≠ m.id := by
        intro he
        exact hnd.1 ⟨m, hmt, he.symm⟩
      have := ih hnd.2 m hmt
      simp only [findById, List.find?] at this ⊢
      rw [show (h.id == m.id) = false from beq_eq_false_iff_ne.mpr hne]
      exact this

theorem mem_runRegistry (ops : List AppendOp) (m : MeetingRec) :
    m ∈ runRegistry ops ↔ ∃ op ∈ ops, mkMeeting op.fileName op.atMs = m := by
  rw [runRegistry_eq, List.mem_reverse, List.mem_map]

/-! ### Upload key lemmas -/

theorem uniqueFileName_ne (t₁ t₂ : Nat) (f : String) (h : t₁ ≠ t₂) :
    uniqueFileName t₁ f ≠ uniqueFileName t₂ f := by
  intro heq
  apply h
  apply natToString_injective
  have hdata := congrArg String.data heq
  simp only [uniqueFileName, String.data_append, List.append_assoc,
    show ("-" : String).data = ['-'] from rfl, List.singleton_append] at hdata
  have hmid := List.append_cancel_left hdata
  have hsep := append_sep_cancel '-' (natToString t₁).data (natToString t₂).data
    f.data f.data (natToString_no_dash t₁) (natToString_no_dash t₂) hmid
  exact String.ext hsep.1

/-! ### Claims -/

/-- C1 counterexample: neither report-route variant derives the key
"audits/call_01.json" from the source file name "call_01.mp3" claimed by
the spec; variant 1 uses the folder "audit/" and variant 2 appends
"_audit.json", and variant 2 maps "notes.txt" to "audits/notes_audit.json"
rather than any key retaining "notes.txt". -/
theorem c1_counterexample :
    reportKeyV1 "call_01.mp3" ≠ "audits/call_01.json"
    ∧ reportKeyV2 "call_01.mp3" ≠ "audits/call_01.json"
    ∧ reportKeyV2 "notes.txt" ≠ "audits/notes.txt.json" := by
  decide

/-- C1 (amended): the key derivation of both report-route variants is a
total function of the file name.  Variant 1 replaces a trailing audio
extension from the set mp3, wav, m4a, flac, ogg (case-insensitively) with
".json" under the folder "audit/", leaving names without a recognized
extension unchanged under that folder; variant 2 also strips txt and
produces "audits/" ++ base ++ "_audit.json". -/
theorem c1_key_derivation_total :
    reportKeyV1 "call_01.mp3" = "audit/call_01.json"
    ∧ reportKeyV1 "CALL_01.MP3" = "audit/CALL_01.json"
    ∧ reportKeyV1 "notes.txt" = "audit/notes.txt"
    ∧ reportKeyV2 "call_01.mp3" = "audits/call_01_audit.json"
    ∧ reportKeyV2 "notes.txt" = "audits/notes_audit.json"
    ∧ (∀ s base, firstStrip audioExtsV1 s = some base →
        reportKeyV1 s = "audit/" ++ base ++ ".json")
    ∧ (∀ s, firstStrip audioExtsV1 s = none → reportKeyV1 s = "audit/" ++ s)
    ∧ (∀ s, reportKeyV2 s = "audits/" ++ baseNameV2 s ++ "_audit.json") := by
  refine ⟨by decide, by decide, by decide, by decide, by decide, ?_, ?_, ?_⟩
  · intro s base hb
    simp [reportKeyV1, hb]
  · intro s hb
    simp [reportKeyV1, hb]
  · intro s
    rfl

/-- C1 witness: the general derivation clauses evaluated at concrete
inputs with a recognized and an unrecognized extension. -/
theorem c1_key_derivation_total_witness :
    reportKeyV1 "a.wav" = "audit/" ++ "a" ++ ".json"
    ∧ reportKeyV1 "x.pdf" = "audit/" ++ "x.pdf"
    ∧ reportKeyV2 "x.pdf" = "audits/" ++ baseNameV2 "x.pdf" ++ "_audit.json" := by
  refine ⟨?_, ?_, ?_⟩
  · exact c1_key_derivation_total.2.2.2.2.2.1 "a.wav" "a" (by decide)
  · exact c1_key_derivation_total.2.2.2.2.2.2.1 "x.pdf" (by decide)
  · exact c1_key_derivation_total.2.2.2.2.2.2.2 "x.pdf"

/-- C2 counterexample: resolver variant 2 contains a branch keyed on the
literal meeting id "meeting-live-demo".  Two registries whose records
carry the same sourceFileName "x.mp3", against the same store (derived
key absent, hardcoded fallback key present), resolve to 200 under the
demo id but 202 under any other id. -/
theorem c2_counterexample :
    (resolveReportV2
      (.stored [{ id := "meeting-live-demo", fileName := "x.mp3",
                  createdAtMs := 0, advisors := "Client Meeting",
                  meetingUrl := "Pre-recorded audio", status := "Completed" }])
      (fun _ k => if k == "audits/call_01_audit.json"
        then .ok (.wellFormed "demo-report") else .noSuchKey)
      "meeting-live-demo").status = 200
    ∧ (resolveReportV2
      (.stored [{ id := "meeting-2", fileName := "x.mp3",
                  createdAtMs := 0, advisors := "Client Meeting",
                  meetingUrl := "Pre-recorded audio", status := "Completed" }])
      (fun _ k => if k == "audits/call_01_audit.json"
        then .ok (.wellFormed "demo-report") else .noSuchKey)
      "meeting-2").status = 202 := by
  decide

/-- C2 (amended): for resolver variant 1 the derived key, the outcome
status and the fetched report depend only on the record's stored file
name: two invocations whose registry lookups produce records with equal
fileName, against the same store and bucket, yield equal status and
report fields.  Variant 2 shares the key derivation but its error path
special-cases the meeting id "meeting-live-demo". -/
theorem c2_resolution_by_filename :
    ∀ bs₁ bs₂ store bucket id₁ id₂ m₁ m₂,
      findById (readMeetings bs₁) id₁ = some m₁ →
      findById (readMeetings bs₂) id₂ = some m₂ →
      m₁.fileName = m₂.fileName →
      reportKeyV1 m₁.fileName = reportKeyV1 m₂.fileName
      ∧ reportKeyV2 m₁.fileName = reportKeyV2 m₂.fileName
      ∧ (resolveReportV1 bs₁ store bucket id₁).status
          = (resolveReportV1 bs₂ store bucket id₂).status
      ∧ (resolveReportV1 bs₁ store bucket id₁).report
          = (resolveReportV1 bs₂ store bucket id₂).report := by
  intro bs₁ bs₂ store bucket id₁ id₂ m₁ m₂ h₁ h₂ hf
  refine ⟨by rw [hf], by rw [hf], ?_, ?_⟩ <;>
  · simp only [resolveReportV1, h₁, h₂, hf]
    cases store bucket (reportKeyV1 m₂.fileName) with
    | ok c => cases c <;> rfl
    | noSuchKey => rfl
    | fault m => rfl

/-- C2 witness: the invariance theorem applied to two concrete registries
holding the same file name under different ids. -/
theorem c2_resolution_by_filename_witness :
    reportKeyV1 (mkMeeting "x.mp3" 1).fileName
        = reportKeyV1 (mkMeeting "x.mp3" 2).fileName
    ∧ reportKeyV2 (mkMeeting "x.mp3" 1).fileName
        = reportKeyV2 (mkMeeting "x.mp3" 2).fileName
    ∧ (resolveReportV1 (.stored [mkMeeting "x.mp3" 1]) (fun _ _ => .noSuchKey)
        "reports" "meeting-1").status
      = (resolveReportV1 (.stored [mkMeeting "x.mp3" 2]) (fun _ _ => .noSuchKey)
        "reports" "meeting-2").status
    ∧ (resolveReportV1 (.stored [mkMeeting "x.mp3" 1]) (fun _ _ => .noSuchKey)
        "reports" "meeting-1").report
      = (resolveReportV1 (.stored [mkMeeting "x.mp3" 2]) (fun _ _ => .noSuchKey)
        "reports" "meeting-2").report := by
  exact c2_resolution_by_filename (.stored [mkMeeting "x.mp3" 1])
    (.stored [mkMeeting "x.mp3" 2]) (fun _ _ => .noSuchKey) "reports"
    "meeting-1" "meeting-2" (mkMeeting "x.mp3" 1) (mkMeeting "x.mp3" 2)
    (by decide) (by decide) rfl

/-- C3 counterexample: resolver variant 2 answers 202, not 500, to a
store-level fault that is not NoSuchKey (here a permission fault), so the
claim that every non-NoSuchKey store fault yields TransientError 500 is
false on the code. -/
theorem c3_counterexample :
    (resolveReportV2 (.stored [mkMeeting "call_01.mp3" 1])
      (fun _ _ => .fault "AccessDenied") "meeting-1").status = 202
    ∧ (resolveReportV2 (.stored [mkMeeting "call_01.mp3" 1])
      (fun _ _ => .fault "AccessDenied") "meeting-1").status ≠ 500 := by
  decide

/-- C3 (amended): resolver variant 1 classifies exactly as claimed: 202
arises only from a NoSuchKey answer at the derived key, while any other
store fault and a parse failure of the fetched artifact yield 500.
Resolver variant 2, outside its demo fallback, answers 202 to every
store-level fault. -/
theorem c3_error_classification :
    (∀ bs store bucket mid, (resolveReportV1 bs store bucket mid).status = 202 →
      ∃ m, findById (readMeetings bs) mid = some m
        ∧ store bucket (reportKeyV1 m.fileName) = .noSuchKey)
    ∧ (∀ bs store bucket mid m msg, findById (readMeetings bs) mid = some m →
      store bucket (reportKeyV1 m.fileName) = .fault msg →
      (resolveReportV1 bs store bucket mid).status = 500)
    ∧ (∀ bs store bucket mid m, findById (readMeetings bs) mid = some m →
      store bucket (reportKeyV1 m.fileName) = .ok .malformed →
      (resolveReportV1 bs store bucket mid).status = 500)
    ∧ (∀ bs store mid m msg, mid ≠ "meeting-live-demo" →
      findById (readMeetings bs) mid = some m →
      store "transcripts-raw-lpl-26" (reportKeyV2 m.fileName) = .fault msg →
      (resolveReportV2 bs store mid).status = 202) := by
  refine ⟨?_, ?_, ?_, ?_⟩
  · intro bs store bucket mid h
    cases hf : findById (readMeetings bs) mid with
    | none => simp [resolveReportV1, hf] at h
    | some m =>
      refine ⟨m, by simp [hf], ?_⟩
      cases hs : store bucket (reportKeyV1 m.fileName) with
      | ok c => cases c <;> simp [resolveReportV1, hf, hs] at h
      | noSuchKey => rfl
      | fault msg => simp [resolveReportV1, hf, hs] at h
  · intro bs store bucket mid m msg hf hs
    simp [resolveReportV1, hf, hs]
  · intro bs store bucket mid m hf hs
    simp [resolveReportV1, hf, hs]
  · intro bs store mid m msg hne hf hs
    simp [resolveReportV2, hf, hs, demoFallback, hne]

/-- C3 witness: the classification clauses evaluated on concrete
registries and stores exhibiting each fault. -/
theorem c3_error_classification_witness :
    (∃ m, findById (readMeetings (.stored [mkMeeting "a.mp3" 1])) "meeting-1" = some m
      ∧ (fun _ _ => S3Outcome.noSuchKey : S3Store) "B" (reportKeyV1 m.fileName) = .noSuchKey)
    ∧ (resolveReportV1 (.stored [mkMeeting "a.mp3" 1]) (fun _ _ => .fault "boom")
        "B" "meeting-1").status = 500
    ∧ (resolveReportV1 (.stored [mkMeeting "a.mp3" 1]) (fun _ _ => .ok .malformed)
        "B" "meeting-1").status = 500
    ∧ (resolveReportV2 (.stored [mkMeeting "a.mp3" 1]) (fun _ _ => .fault "boom")
        "meeting-1").status = 202 := by
  refine ⟨?_, ?_, ?_, ?_⟩
  · exact c3_error_classification.1 (.stored [mkMeeting "a.mp3" 1])
      (fun _ _ => .noSuchKey) "B" "meeting-1" (by decide)
  · exact c3_error_classification.2.1 (.stored [mkMeeting "a.mp3" 1])
      (fun _ _ => .fault "boom") "B" "meeting-1" (mkMeeting "a.mp3" 1) "boom"
      (by decide) rfl
  · exact c3_error_classification.2.2.1 (.stored [mkMeeting "a.mp3" 1])
      (fun _ _ => .ok .malformed) "B" "meeting-1" (mkMeeting "a.mp3" 1)
      (by decide) rfl
  · exact c3_error_classification.2.2.2 (.stored [mkMeeting "a.mp3" 1])
      (fun _ _ => .fault "boom") "meeting-1" (mkMeeting "a.mp3" 1) "boom"
      (by decide) (by decide) rfl

/-- C4 counterexample: resolver variant 2 answers a missing report object
with 202 whose body carries neither a success flag nor the meeting
record, so the claimed 202 payload shape fails on the code. -/
theorem c4_counterexample :
    (resolveReportV2 (.stored [mkMeeting "a.mp3" 1]) (fun _ _ => .noSuchKey)
      "meeting-1").status = 202
    ∧ (resolveReportV2 (.stored [mkMeeting "a.mp3" 1]) (fun _ _ => .noSuchKey)
      "meeting-1").meeting = none
    ∧ (resolveReportV2 (.stored [mkMeeting "a.mp3" 1]) (fun _ _ => .noSuchKey)
      "meeting-1").success = none := by
  decide

/-- C4 (amended): when the meeting id is registered and the store answers
NoSuchKey at the derived key, resolver variant 1 returns exactly the
claimed NotReady response: 202 with success false, a message and the
meeting record; resolver variant 2 (outside its demo fallback) returns
202 with only an error and details, without the meeting record. -/
theorem c4_not_ready_payload :
    (∀ bs store bucket mid m, findById (readMeetings bs) mid = some m →
      store bucket (reportKeyV1 m.fileName) = .noSuchKey →
      resolveReportV1 bs store bucket mid =
        { status := 202, success := some false, error := some "Report not ready",
          message := some "The compliance report is still being processed. Please try again in a few minutes.",
          meeting := some m })
    ∧ (∀ bs store mid m, mid ≠ "meeting-live-demo" →
      findById (readMeetings bs) mid = some m →
      store "transcripts-raw-lpl-26" (reportKeyV2 m.fileName) = .noSuchKey →
      resolveReportV2 bs store mid =
        { status := 202, error := some "S3 Fetch Failed",
          details := some "The specified key does not exist." }) := by
  constructor
  · intro bs store bucket mid m hf hs
    simp [resolveReportV1, hf, hs]
  · intro bs store mid m hne hf hs
    simp [resolveReportV2, hf, hs, demoFallback, hne]

/-- C4 witness: both NotReady clauses evaluated on a concrete registry
and an empty store. -/
theorem c4_not_ready_payload_witness :
    resolveReportV1 (.stored [mkMeeting "a.mp3" 1]) (fun _ _ => .noSuchKey)
      "B" "meeting-1" =
      { status := 202, success := some false, error := some "Report not ready",
        message := some "The compliance report is still being processed. Please try again in a few minutes.",
        meeting := some (mkMeeting "a.mp3" 1) }
    ∧ resolveReportV2 (.stored [mkMeeting "a.mp3" 1]) (fun _ _ => .noSuchKey)
      "meeting-1" =
      { status := 202, error := some "S3 Fetch Failed",
        details := some "The specified key does not exist." } := by
  constructor
  · exact c4_not_ready_payload.1 (.stored [mkMeeting "a.mp3" 1])
      (fun _ _ => .noSuchKey) "B" "meeting-1" (mkMeeting "a.mp3" 1)
      (by decide) rfl
  · exact c4_not_ready_payload.2 (.stored [mkMeeting "a.mp3" 1])
      (fun _ _ => .noSuchKey) "meeting-1" (mkMeeting "a.mp3" 1)
      (by decide) (by decide) rfl

/-- C5 counterexample: two sequential appends handled within the same
clock millisecond (Date.now() = 5 for both) produce two registry records
with the identical id "meeting-5", so the generated ids are not pairwise
distinct for every non-concurrent sequence of appends. -/
theorem c5_counterexample :
    (runRegistry [⟨"a.mp3", 5⟩, ⟨"b.mp3", 5⟩]).map MeetingRec.id
      = ["meeting-5", "meeting-5"]
    ∧ ¬ ((runRegistry [⟨"a.mp3", 5⟩, ⟨"b.mp3", 5⟩]).map MeetingRec.id).Nodup := by
  decide

/-- C5 (amended): the ids generated by a sequence of appends are pairwise
distinct provided the appends observe pairwise-distinct Date.now()
values, the id being the decimal clock value under the fixed prefix;
appends sharing a millisecond share an id. -/
theorem c5_unique_ids (ops : List AppendOp)
    (h : (ops.map AppendOp.atMs).Nodup) :
    ((runRegistry ops).map MeetingRec.id).Nodup := by
  exact runRegistry_ids_nodup ops h

/-- C5 witness: two appends one millisecond apart yield distinct ids. -/
theorem c5_unique_ids_witness :
    ((runRegistry [⟨"a.mp3", 1⟩, ⟨"b.mp3", 2⟩]).map MeetingRec.id).Nodup := by
  exact c5_unique_ids [⟨"a.mp3", 1⟩, ⟨"b.mp3", 2⟩] (by decide)

/-- C6 counterexample: after two appends in the same millisecond the
first append returned the record for "a.mp3" under id "meeting-7", yet
findById on "meeting-7" returns the record of the second append
("b.mp3"), not the exact record previously returned. -/
theorem c6_counterexample :
    (appendMeeting "a.mp3" 7 []).1.id = "meeting-7"
    ∧ (appendMeeting "a.mp3" 7 []).1 = mkMeeting "a.mp3" 7
    ∧ findById (runRegistry [⟨"a.mp3", 7⟩, ⟨"b.mp3", 7⟩]) "meeting-7"
        = some (mkMeeting "b.mp3" 7)
    ∧ mkMeeting "b.mp3" 7 ≠ mkMeeting "a.mp3" 7 := by
  decide

/-- C6 (amended): findById returns none for every id never generated by
an append of the sequence, and the report route then answers 404 Meeting
not found; and provided the appends observe pairwise-distinct clock
values, findById returns exactly the record each append created. -/
theorem c6_find_by_id :
    (∀ (ops : List AppendOp) (s : String),
      (∀ op ∈ ops, s ≠ mkMeetingId op.atMs) →
      findById (runRegistry ops) s = none
      ∧ ∀ store bucket,
          (resolveReportV1 (.stored (runRegistry ops)) store bucket s).status = 404)
    ∧ (∀ ops : List AppendOp, (ops.map AppendOp.atMs).Nodup →
      ∀ op ∈ ops, findById (runRegistry ops) (mkMeetingId op.atMs)
        = some (mkMeeting op.fileName op.atMs)) := by
  constructor
  · intro ops s h
    have hnone : findById (runRegistry ops) s = none := by
      apply findById_eq_none
      intro m hm
      rw [mem_runRegistry] at hm
      obtain ⟨op, hop, rfl⟩ := hm
      exact fun he => h op hop he.symm
    refine ⟨hnone, ?_⟩
    intro store bucket
    simp [resolveReportV1, readMeetings, readMeetingsRaw, hnone]
  · intro ops hnd op hop
    have hmem : mkMeeting op.fileName op.atMs ∈ runRegistry ops :=
      (mem_runRegistry ops _).mpr ⟨op, hop, rfl⟩
    exact findById_of_mem (runRegistry ops) (runRegistry_ids_nodup ops hnd) _ hmem

/-- C6 witness: both clauses evaluated on a concrete two-append history:
an unknown id resolves to none and 404, a generated id to its record. -/
theorem c6_find_by_id_witness :
    findById (runRegistry [⟨"a.mp3", 1⟩, ⟨"b.mp3", 2⟩]) "meeting-9" = none
    ∧ (resolveReportV1 (.stored (runRegistry [⟨"a.mp3", 1⟩, ⟨"b.mp3", 2⟩]))
        (fun _ _ => .noSuchKey) "B" "meeting-9").status = 404
    ∧ findById (runRegistry [⟨"a.mp3", 1⟩, ⟨"b.mp3", 2⟩]) (mkMeetingId 1)
        = some (mkMeeting "a.mp3" 1) := by
  refine ⟨?_, ?_, ?_⟩
  · exact (c6_find_by_id.1 [⟨"a.mp3", 1⟩, ⟨"b.mp3", 2⟩] "meeting-9" (by decide)).1
  · exact (c6_find_by_id.1 [⟨"a.mp3", 1⟩, ⟨"b.mp3", 2⟩] "meeting-9" (by decide)).2
      (fun _ _ => .noSuchKey) "B"
  · exact c6_find_by_id.2 [⟨"a.mp3", 1⟩, ⟨"b.mp3", 2⟩] (by decide)
      ⟨"a.mp3", 1⟩ (by decide)

/-- C7: with credentials and bucket configured, the upload grant carries
the object key audio/(issuance-epoch-millis)-(fileName), and the keys of
two grants for the same file name issued at distinct millisecond clock
values (in particular, separated by at least one millisecond) are
distinct. -/
theorem c7_upload_key :
    (∀ env f ft t, isFalsy env.awsAccessKeyId = false →
      isFalsy env.awsSecretAccessKey = false →
      isFalsy env.s3BucketName = false →
      (requestUploadGrant env f ft t).uploadKey
        = some ("audio/" ++ natToString t ++ "-" ++ f)
      ∧ (requestUploadGrant env f ft t).status = 200)
    ∧ (∀ t₁ t₂ f, t₁ ≠ t₂ → uniqueFileName t₁ f ≠ uniqueFileName t₂ f) := by
  constructor
  · intro env f ft t h₁ h₂ h₃
    constructor <;> simp [requestUploadGrant, h₁, h₂, h₃, uniqueFileName]
  · exact uniqueFileName_ne

/-- C7 witness: a concrete grant request at clock value 41, and the
distinctness of the keys issued at clock values 41 and 42. -/
theorem c7_upload_key_witness :
    (requestUploadGrant ⟨some "us-east-1", some "AK", some "SK", some "bucket"⟩
      "call.mp3" "audio/mpeg" 41).uploadKey
      = some ("audio/" ++ natToString 41 ++ "-" ++ "call.mp3")
    ∧ uniqueFileName 41 "call.mp3" ≠ uniqueFileName 42 "call.mp3" := by
  constructor
  · exact (c7_upload_key.1 ⟨some "us-east-1", some "AK", some "SK", some "bucket"⟩
      "call.mp3" "audio/mpeg" 41 rfl rfl rfl).1
  · exact c7_upload_key.2 41 42 "call.mp3" (by decide)

/-- C8 counterexample: with the store region absent from the environment
but credentials and bucket present, the upload-grant handler does not
fail: it answers 200 and issues a grant, the client having been built
with the silent default region us-east-1. -/
theorem c8_counterexample :
    (requestUploadGrant ⟨none, some "AK", some "SK", some "bucket"⟩
      "f.mp3" "audio/mpeg" 5).status = 200
    ∧ (requestUploadGrant ⟨none, some "AK", some "SK", some "bucket"⟩
      "f.mp3" "audio/mpeg" 5).grantIssued = true
    ∧ regionOf ⟨none, some "AK", some "SK", some "bucket"⟩ = "us-east-1" := by
  decide

/-- C8 (amended): absence (or emptiness) of the access key id, secret
access key or upload-bucket name makes the handler fail with 500 and the
fixed configuration error, with no grant issued; the store region is not
validated: when unset it silently defaults to us-east-1, and with the
other three values present the grant is issued. -/
theorem c8_config_validation :
    (∀ env f ft t,
      (isFalsy env.awsAccessKeyId || isFalsy env.awsSecretAccessKey
        || isFalsy env.s3BucketName) = true →
      requestUploadGrant env f ft t
        = { status := 500, error := some "AWS configuration missing" })
    ∧ (∀ env : UploadEnv, env.awsRegion = none → regionOf env = "us-east-1")
    ∧ (∀ env f ft t, isFalsy env.awsAccessKeyId = false →
      isFalsy env.awsSecretAccessKey = false →
      isFalsy env.s3BucketName = false →
      (requestUploadGrant env f ft t).status = 200
      ∧ (requestUploadGrant env f ft t).grantIssued = true) := by
  refine ⟨?_, ?_, ?_⟩
  · intro env f ft t h
    simp [requestUploadGrant, h]
  · intro env h
    simp [regionOf, h]
  · intro env f ft t h₁ h₂ h₃
    constructor <;> simp [requestUploadGrant, h₁, h₂, h₃]

/-- C8 witness: the configuration clauses evaluated at a concrete
environment missing the bucket name, one missing only the region, and a
fully configured one. -/
theorem c8_config_validation_witness :
    requestUploadGrant ⟨some "r", some "AK", some "SK", none⟩ "f.mp3" "t" 5
      = { status := 500, error := some "AWS configuration missing" }
    ∧ regionOf ⟨none, some "AK", some "SK", some "bucket"⟩ = "us-east-1"
    ∧ (requestUploadGrant ⟨some "r", some "AK", some "SK", some "bucket"⟩
        "f.mp3" "t" 5).status = 200 := by
  refine ⟨?_, ?_, ?_⟩
  · exact c8_config_validation.1 ⟨some "r", some "AK", some "SK", none⟩
      "f.mp3" "t" 5 rfl
  · exact c8_config_validation.2.1 ⟨none, some "AK", some "SK", some "bucket"⟩ rfl
  · exact (c8_config_validation.2.2 ⟨some "r", some "AK", some "SK", some "bucket"⟩
      "f.mp3" "t" 5 rfl rfl rfl).1

/-- C9: the registry read maps an absent backing file and an unparsable
backing file to the empty collection; any throw of the read body is
caught and yields the empty collection rather than a fault; and the
meetings listing always answers 200 with the read collection, so its 500
branch is unreachable. -/
theorem c9_missing_store_empty :
    readMeetings .absent = []
    ∧ readMeetings .unparsable = []
    ∧ (∀ bs e, readMeetingsRaw bs = .error e → readMeetings bs = [])
    ∧ (∀ bs, getMeetings bs = { status := 200, meetings := some (readMeetings bs) })
    ∧ getMeetings .absent = { status := 200, meetings := some [] } := by
  refine ⟨rfl, rfl, ?_, fun bs => rfl, rfl⟩
  intro bs e he
  simp [readMeetings, he]

/-- C9 witness: the catch clause evaluated at the unparsable store. -/
theorem c9_missing_store_empty_witness :
    readMeetings .unparsable = [] := by
  exact c9_missing_store_empty.2.2.1 .unparsable
    "SyntaxError: Unexpected token" rfl

/-- C10: a request body whose fileName is missing or empty is answered
with 400 and the fixed error, and the registry backing store is returned
unchanged: no record is appended and nothing is written. -/
theorem c10_missing_filename (bs : BackingStore) (t : Nat)
    (body : Option String) (h : body = none ∨ body = some "") :
    postFromUpload body t bs
      = ({ status := 400, error := some "fileName is required" }, bs) := by
  rcases h with rfl | rfl <;> simp [postFromUpload]

/-- C10 witness: a missing fileName against a populated store and an
empty fileName against the absent store both leave the state unchanged. -/
theorem c10_missing_filename_witness :
    postFromUpload none 3 (.stored [mkMeeting "x.mp3" 1])
      = ({ status := 400, error := some "fileName is required" },
         .stored [mkMeeting "x.mp3" 1])
    ∧ postFromUpload (some "") 3 .absent
      = ({ status := 400, error := some "fileName is required" }, .absent) := by
  constructor
  · exact c10_missing_filename (.stored [mkMeeting "x.mp3" 1]) 3 none (Or.inl rfl)
  · exact c10_missing_filename .absent 3 (some "") (Or.inr rfl)

end LplPipeline
